import Mathlib

/-!
Verification development for the agentic content-factory repository
(a Next.js app: a browser form in `src/app/page.tsx` and a route handler in
`src/app/api/pipeline/route.ts` that validates a JSON payload with a zod
schema and hands it to the orchestration pipeline `runContentFactory`).

Modelling conventions:
* JS strings are modelled as lists of characters (`Str`); JS numbers as
  integers (`Int`) — every value the claims exercise is integral, and
  `NaN`/fractional inputs are outside the modelled domain.
* The `aspectRatio` field of the source is called `aspect` here.
* The pipeline module `src/lib/pipeline` is imported by the route but its
  source file is not part of the repository snapshot; the definitions that
  stand in for it are explicitly marked "Modelled from the spec".
-/

abbrev Str := List Char

/-- Whitespace characters of the JS regex class \s and of String.prototype.trim
(ASCII subset; exotic unicode space characters are outside the modelled domain). -/
def isSpaceChar (c : Char) : Bool :=
  c = ' ' || c = '\t' || c = '\n' || c = '\r' || c = '\x0b' || c = '\x0c'

/-- Separator class of the split regex at page.tsx line 92 ([,\s]): a comma or
a whitespace character. -/
def isTagSep (c : Char) : Bool := c = ',' || isSpaceChar c

/-- JS String.prototype.trim, on character lists. -/
def trimChars (s : Str) : Str :=
  ((s.dropWhile isSpaceChar).reverse.dropWhile isSpaceChar).reverse

/-- JS replace of the regex ^# by the empty string: drops one leading hash. -/
def stripLeadingHash : Str → Str
  | '#' :: rest => rest
  | s => s

/-- Worker for `splitSeps`: `acc` holds the current piece reversed, `afterSep`
records that the previous character belonged to a separator run (the + of the
regex merges a run into a single boundary). -/
def splitSepsAux : Str → Str → Bool → List Str
  | [], acc, _ => [acc.reverse]
  | c :: rest, acc, afterSep =>
    if isTagSep c then
      if afterSep then splitSepsAux rest [] true
      else acc.reverse :: splitSepsAux rest [] true
    else splitSepsAux rest (c :: acc) false

/-- JS String.prototype.split on the regex [,\s]+ (page.tsx line 92): a run of
separators is one boundary; a leading or trailing run contributes an empty
piece, exactly as the JS split does. -/
def splitSeps (s : Str) : List Str := splitSepsAux s [] false

/-- page.tsx lines 91-94: the hashtags field is split on commas/whitespace,
each piece is trimmed and has one leading hash removed, and empty pieces are
dropped (the filter(Boolean) step). Note this UI-side processing does not
deduplicate. -/
def uiTags (hashtagsRaw : Str) : List Str :=
  ((splitSeps hashtagsRaw).map (fun t => stripLeadingHash (trimChars t))).filter
    (fun t => !t.isEmpty)

/-- page.tsx line 96: safeDuration = Math.min(Math.max(Number(durationSeconds), 3), 120). -/
def safeDuration (d : Int) : Int := min (max d 3) 120

/-- page.tsx line 97: safeBatchCount = Math.min(Math.max(Number(batchCount), 1), 10). -/
def safeBatchCount (b : Int) : Int := min (max b 1) 10

/-- The JSON value supplied for the durationSeconds field of the POST payload:
absent, a number, or a string (z.coerce.number coerces strings through
Number). Other JSON types at this position are outside the modelled domain. -/
inductive NumInput
  | absent
  | ofNum (n : Int)
  | ofStr (s : Str)
deriving DecidableEq

/-- The JSON object a client POSTs to /api/pipeline, with the fields the
schema at route.ts lines 9-23 reads. String-typed fields are `Option Str`
(present string or absent); non-string JSON values at a string position are
outside the modelled domain. -/
structure Payload where
  prompt : Option Str
  aspect : Option Str
  durationSeconds : NumInput
  negativePrompt : Option Str
  stylePreset : Option Str
  audioPrompt : Option Str
  title : Option Str
  description : Option Str
  tags : Option (List Str)
  publishAt : Option Str
  visibility : Option Str
  uploadToYoutube : Option Bool
  keepLocalFile : Option Bool
deriving DecidableEq

/-- The values the form in page.tsx submits with (text fields, the two number
inputs, the checkboxes and the visibility choice). -/
structure FormInputs where
  promptText : Str
  titleTemplate : Str
  descriptionText : Str
  hashtagsRaw : Str
  stylePresetText : Str
  negativePromptText : Str
  publishAtRaw : Str
  aspectChoice : Str
  visibilityChoice : Str
  durationInput : Int
  batchInput : Int
  uploadToYoutubeFlag : Bool
  keepLocalFileFlag : Bool
deriving DecidableEq

/-- page.tsx lines 109-125: the payload object built for loop iteration
`index` (0-based) when the effective batch count is `count`. The title gets
the suffix " #(index+1)" exactly when count exceeds 1; empty optional text
fields become undefined (here: none). -/
def mkPayload (f : FormInputs) (count : Nat) (index : Nat) : Payload :=
  { prompt := some f.promptText
    aspect := some f.aspectChoice
    durationSeconds := NumInput.ofNum (safeDuration f.durationInput)
    negativePrompt := if f.negativePromptText.isEmpty then none
      else some f.negativePromptText
    stylePreset := if f.stylePresetText.isEmpty then none
      else some f.stylePresetText
    audioPrompt := none
    title := some (if 1 < count then
        trimChars f.titleTemplate ++ (' ' :: '#' :: (Nat.repr (index + 1)).toList)
      else trimChars f.titleTemplate)
    description := some f.descriptionText
    tags := some (uiTags f.hashtagsRaw)
    publishAt := if f.publishAtRaw.isEmpty then none else some f.publishAtRaw
    visibility := some f.visibilityChoice
    uploadToYoutube := some f.uploadToYoutubeFlag
    keepLocalFile := some f.keepLocalFileFlag }

/-- Number of iterations of the dispatch loop at page.tsx line 100. -/
def runCount (f : FormInputs) : Nat := (safeBatchCount f.batchInput).toNat

/-- The sequence of payloads the dispatch loop at page.tsx lines 100-133
POSTs to /api/pipeline, in dispatch order. -/
def batchPayloads (f : FormInputs) : List Payload :=
  (List.range (runCount f)).map (fun index => mkPayload f (runCount f) index)

/-- Observable events of one form submission: run k's request being
dispatched (the fetch at line 127) and its response being received and
consumed (the awaits at lines 127 and 135). Runs are numbered from 1. -/
inductive RunEvent
  | dispatched (k : Nat)
  | responded (k : Nat)
deriving DecidableEq

/-- Event trace of the dispatch loop for n iterations: each iteration awaits
the fetch and then awaits response.json() before the loop continues, so the
iteration contributes its dispatched event followed by its responded event,
and iterations are concatenated in order. -/
def runTrace : Nat → List RunEvent
  | 0 => []
  | n + 1 => runTrace n ++ [RunEvent.dispatched (n + 1), RunEvent.responded (n + 1)]

/-- Event trace of one form submission (page.tsx lines 100-183). -/
def batchTrace (f : FormInputs) : List RunEvent := runTrace (runCount f)

def isDispatchEvent : RunEvent → Bool
  | RunEvent.dispatched _ => true
  | RunEvent.responded _ => false

/-- Number of requests in flight after a list of events: dispatches not yet
matched by a response. -/
def inFlight (l : List RunEvent) : Nat :=
  l.countP isDispatchEvent - l.countP (fun e => !isDispatchEvent e)

/-- route.ts line 11: the aspect-ratio enum of the schema. -/
def validAspect (s : Str) : Bool :=
  s == "9:16".toList || s == "16:9".toList || s == "1:1".toList

/-- route.ts line 20: the visibility enum of the schema. -/
def validVisibility (s : Str) : Bool :=
  s == "public".toList || s == "private".toList || s == "unlisted".toList

/-- Value of a nonempty all-digit string. -/
def digitsVal (ds : Str) : Option Nat :=
  if ds.isEmpty then none
  else if ds.all Char.isDigit then
    some (ds.foldl (fun n c => n * 10 + (c.toNat - 48)) 0)
  else none

/-- JS Number(string), as used by z.coerce.number: surrounding whitespace is
ignored, the empty (or all-whitespace) string coerces to 0, a decimal integer
with optional sign coerces to its value, anything else is NaN (none here).
Fractional, exponent and hex forms are outside the modelled domain. -/
def strToNum (s : Str) : Option Int :=
  match trimChars s with
  | [] => some 0
  | '-' :: ds => (digitsVal ds).map (fun n => -(n : Int))
  | '+' :: ds => (digitsVal ds).map (fun n => (n : Int))
  | ds => (digitsVal ds).map (fun n => (n : Int))

/-- route.ts line 10: z.string().min(5). -/
def parsePrompt : Option Str → Option Str
  | some s => if 5 ≤ s.length then some s else none
  | none => none

/-- route.ts line 11: z.enum(["9:16", "16:9", "1:1"]).default("9:16"). -/
def parseAspect : Option Str → Option Str
  | none => some ("9:16".toList)
  | some s => if validAspect s then some s else none

/-- route.ts line 12: z.coerce.number().min(3).max(120).default(15). An absent
field takes the default 15; a number or a coercible string must lie in
[3, 120]; a non-numeric string is NaN and fails the range checks. -/
def parseDuration : NumInput → Option Int
  | NumInput.absent => some 15
  | NumInput.ofNum n => if 3 ≤ n ∧ n ≤ 120 then some n else none
  | NumInput.ofStr s =>
    match strToNum s with
    | some n => if 3 ≤ n ∧ n ≤ 120 then some n else none
    | none => none

/-- route.ts lines 16-17: z.string().min(k) for title (k = 3) and
description (k = 10). -/
def parseMinLen (k : Nat) : Option Str → Option Str
  | some s => if k ≤ s.length then some s else none
  | none => none

/-- route.ts line 18: z.array(z.string().min(1)).optional(). -/
def parseTags : Option (List Str) → Option (Option (List Str))
  | none => some none
  | some l => if l.all (fun t => 1 ≤ t.length) then some (some l) else none

/-- route.ts line 20: z.enum(["public", "private", "unlisted"]).optional(). -/
def parseVisibility : Option Str → Option (Option Str)
  | none => some none
  | some s => if validVisibility s then some (some s) else none

/-- The parsed request the route hands to runContentFactory (route.ts line 54). -/
structure ContentFactoryRequest where
  prompt : Str
  aspect : Str
  durationSeconds : Int
  negativePrompt : Option Str
  stylePreset : Option Str
  audioPrompt : Option Str
  title : Str
  description : Str
  tags : Option (List Str)
  publishAt : Option Str
  visibility : Option Str
  uploadToYoutube : Option Bool
  keepLocalFile : Option Bool
deriving DecidableEq

/-- requestSchema.safeParse (route.ts lines 9-23, 41): succeeds exactly when
every field check of the zod schema passes, producing the parsed request with
defaults filled in. zod checks the fields independently and collects all
failures; for the success/failure semantics modelled here the sequential
composition below is equivalent. -/
def safeParse (p : Payload) : Option ContentFactoryRequest :=
  (parsePrompt p.prompt).bind fun promptV =>
  (parseAspect p.aspect).bind fun aspectV =>
  (parseDuration p.durationSeconds).bind fun durV =>
  (parseMinLen 3 p.title).bind fun titleV =>
  (parseMinLen 10 p.description).bind fun descV =>
  (parseTags p.tags).bind fun tagsV =>
  (parseVisibility p.visibility).bind fun visV =>
  some { prompt := promptV, aspect := aspectV, durationSeconds := durV,
         negativePrompt := p.negativePrompt, stylePreset := p.stylePreset,
         audioPrompt := p.audioPrompt, title := titleV, description := descV,
         tags := tagsV, publishAt := p.publishAt, visibility := visV,
         uploadToYoutube := p.uploadToYoutube, keepLocalFile := p.keepLocalFile }

/-- GenerationResult of the data model: job id, asset reference, terminal
status and the mock marker of its metadata. -/
structure GenerationResult where
  jobId : Str
  assetLocation : Str
  status : Str
  mock : Bool
deriving DecidableEq

/-- UploadOutcome: the tagged variant uploaded / skipped / failed. -/
inductive UploadOutcome
  | uploaded (videoId : Str) (visibility : Str)
  | skipped (reason : Str)
  | failed (cause : Str)
deriving DecidableEq

/-- PipelineResult: the single object a pipeline run returns. -/
structure PipelineResult where
  video : GenerationResult
  youtube : Option UploadOutcome
  durationMs : Nat
deriving DecidableEq

/-- What the awaited runContentFactory call does, as observed by the route:
it resolves with a PipelineResult or it throws with a message. -/
inductive RunOutcome
  | succeeds (r : PipelineResult)
  | throws (msg : Str)

/-- Body of a route response: an error message or a full pipeline result. -/
inductive ResponseBody
  | errorBody (error : Str)
  | resultBody (r : PipelineResult)
deriving DecidableEq

structure PostResponse where
  status : Nat
  ok : Bool
  body : ResponseBody
deriving DecidableEq

/-- Input of the POST handler after the body read at route.ts line 29: the
body either fails to parse as JSON or yields a payload object. -/
inductive PostInput
  | badJson
  | jsonPayload (p : Payload)

/-- route.ts lines 25-75: the POST handler. `run` is the behaviour of the
awaited runContentFactory call. The second component of the result records
whether runContentFactory was invoked during the request. -/
def POSTroute (run : ContentFactoryRequest → RunOutcome) :
    PostInput → PostResponse × Bool
  | PostInput.badJson =>
    ({ status := 400, ok := false,
       body := ResponseBody.errorBody ("Invalid JSON payload.".toList) }, false)
  | PostInput.jsonPayload p =>
    match safeParse p with
    | none =>
      ({ status := 422, ok := false,
         body := ResponseBody.errorBody ("Validation failed.".toList) }, false)
    | some req =>
      match run req with
      | RunOutcome.succeeds r =>
        ({ status := 200, ok := true, body := ResponseBody.resultBody r }, true)
      | RunOutcome.throws m =>
        ({ status := 500, ok := false, body := ResponseBody.errorBody m }, true)

/-- Worker for `dedupTags`: keeps an element when it has not been seen yet. -/
def dedupAux : List Str → List Str → List Str
  | [], _ => []
  | t :: rest, seen =>
    if t ∈ seen then dedupAux rest seen else t :: dedupAux rest (t :: seen)

/-- First-occurrence deduplication of a tag list. -/
def dedupTags (l : List Str) : List Str := dedupAux l []

/-- Modelled from the spec: the tag normalization of the pipeline
(`runContentFactory` in src/lib/pipeline, a module the route imports but whose
source file is not in the repository snapshot). Spec section 3 describes the
PublishRequest tags as a set of strings, deduplicated, each with its leading
hash stripped, and section 4.1 step 1 orders the pipeline to strip and dedupe
tags. -/
def normalizeTags (tags : List Str) : List Str :=
  dedupTags (tags.map stripLeadingHash)

/-- Behaviour of the generation provider for one run: the job completes with
a job id and an asset, or the provider reports failure. -/
inductive GenOutcome
  | completes (jobId : Str) (asset : Str)
  | fails (detail : Str)
deriving DecidableEq

/-- Behaviour of the upload provider for one run. -/
inductive UpOutcome
  | completes (videoId : Str)
  | fails (cause : Str)
deriving DecidableEq

/-- Configuration and provider behaviour visible to one pipeline run. -/
structure PipelineEnv where
  mockPipeline : Bool
  hasGenerationCreds : Bool
  hasUploadCreds : Bool
  generation : GenOutcome
  upload : UpOutcome
  elapsedMs : Nat
deriving DecidableEq

/-- Classified errors a pipeline run can throw. -/
inductive PipelineError
  | generationFailed (detail : Str)
deriving DecidableEq

/-- Modelled from the spec: `runContentFactory` of src/lib/pipeline, whose
source file is not in the repository snapshot; spec section 4.1 gives its
algorithm. Step 1 normalizes the input (clamps the duration, strips and
dedupes tags); step 2 selects mock mode once per run (mock flag set or
generation credentials absent); step 3 invokes generation and aborts the run
with GenerationFailed on failure; steps 4-6 decide the upload leg: skipped
when not requested, skipped in mock mode or without upload credentials,
otherwise the upload is attempted and a failure becomes the non-throwing
`failed` variant inside the result; step 7 records the wall-clock duration
and returns the PipelineResult. -/
def runContentFactory (env : PipelineEnv) (req : ContentFactoryRequest) :
    Except PipelineError PipelineResult :=
  let req1 : ContentFactoryRequest :=
    { req with durationSeconds := min (max req.durationSeconds 3) 120,
               tags := req.tags.map normalizeTags }
  let mockMode := env.mockPipeline || !env.hasGenerationCreds
  match (if mockMode then
           Except.ok { jobId := "mock-job".toList, assetLocation := "mock-asset".toList,
                       status := "completed".toList, mock := true }
         else
           match env.generation with
           | GenOutcome.completes j a =>
             Except.ok { jobId := j, assetLocation := a,
                         status := "completed".toList, mock := false }
           | GenOutcome.fails d =>
             Except.error (PipelineError.generationFailed d) :
           Except PipelineError GenerationResult) with
  | Except.error e => Except.error e
  | Except.ok video =>
    let youtube : UploadOutcome :=
      if req1.uploadToYoutube ≠ some true then
        UploadOutcome.skipped ("not requested".toList)
      else if mockMode then UploadOutcome.skipped ("mock mode".toList)
      else if !env.hasUploadCreds then
        UploadOutcome.skipped ("missing credentials".toList)
      else
        match env.upload with
        | UpOutcome.completes vid =>
          UploadOutcome.uploaded vid (req1.visibility.getD ("unlisted".toList))
        | UpOutcome.fails cause => UploadOutcome.failed cause
    Except.ok { video := video, youtube := some youtube, durationMs := env.elapsedMs }

/-- A concrete filled-in form used by the witnesses: duration typed as 200,
batch size 1. -/
def sampleForm : FormInputs :=
  { promptText := "A happy dog runs through the park".toList
    titleTemplate := "Dog Park Dash".toList
    descriptionText := "Watch this adorable pup tear up the dog park".toList
    hashtagsRaw := []
    stylePresetText := []
    negativePromptText := []
    publishAtRaw := []
    aspectChoice := "9:16".toList
    visibilityChoice := "unlisted".toList
    durationInput := 200
    batchInput := 1
    uploadToYoutubeFlag := true
    keepLocalFileFlag := false }

/-- The same form with batch size 3, for the batch-sequencing witnesses. -/
def sampleFormBatch : FormInputs :=
  { sampleForm with batchInput := 3, durationInput := 15 }

/-- A concrete parsed request that asks for a YouTube upload. -/
def sampleRequest : ContentFactoryRequest :=
  { prompt := "A happy dog runs through the park".toList
    aspect := "9:16".toList
    durationSeconds := 15
    negativePrompt := none
    stylePreset := none
    audioPrompt := none
    title := "Dog Park Dash".toList
    description := "Watch this adorable pup tear up the dog park".toList
    tags := none
    publishAt := none
    visibility := some ("unlisted".toList)
    uploadToYoutube := some true
    keepLocalFile := none }

/-- A concrete live environment (credentials present, mock mode off) whose
generation succeeds and whose upload fails. -/
def sampleFailEnv : PipelineEnv :=
  { mockPipeline := false
    hasGenerationCreds := true
    hasUploadCreds := true
    generation := GenOutcome.completes ("job-1".toList) ("asset-1".toList)
    upload := UpOutcome.fails ("quota exceeded".toList)
    elapsedMs := 1234 }

/-- A payload valid except for its out-of-range duration of 200. -/
def badDurationPayload : Payload :=
  { prompt := some ("A happy dog runs".toList)
    aspect := none
    durationSeconds := NumInput.ofNum 200
    negativePrompt := none
    stylePreset := none
    audioPrompt := none
    title := some ("Dog".toList)
    description := some ("A longer description".toList)
    tags := none
    publishAt := none
    visibility := none
    uploadToYoutube := none
    keepLocalFile := none }

/-- A payload whose prompt "dog" is non-empty but shorter than five
characters, with every other field satisfying its schema constraint. -/
def shortPromptPayload : Payload :=
  { prompt := some ("dog".toList)
    aspect := none
    durationSeconds := NumInput.absent
    negativePrompt := none
    stylePreset := none
    audioPrompt := none
    title := some ("Dog".toList)
    description := some ("A cute dog video!".toList)
    tags := none
    publishAt := none
    visibility := none
    uploadToYoutube := none
    keepLocalFile := none }

/-- A fully valid payload whose aspect ratio is omitted and whose duration is
the numeric string "42". -/
def coercePayload : Payload :=
  { prompt := some ("A happy dog runs".toList)
    aspect := none
    durationSeconds := NumInput.ofStr ("42".toList)
    negativePrompt := none
    stylePreset := none
    audioPrompt := none
    title := some ("Dog Park".toList)
    description := some ("A very cute dog video".toList)
    tags := none
    publishAt := none
    visibility := none
    uploadToYoutube := none
    keepLocalFile := none }

theorem mem_of_mem_dedupAux {t : Str} :
    ∀ {l seen : List Str}, t ∈ dedupAux l seen → t ∈ l
  | a :: rest, seen, ht => by
    rw [dedupAux] at ht
    split at ht
    · exact List.mem_cons_of_mem _ (mem_of_mem_dedupAux ht)
    · rcases List.mem_cons.1 ht with rfl | h2
      · exact List.mem_cons_self _ _
      · exact List.mem_cons_of_mem _ (mem_of_mem_dedupAux h2)

theorem not_mem_seen_of_mem_dedupAux {t : Str} :
    ∀ {l seen : List Str}, t ∈ dedupAux l seen → t ∉ seen
  | a :: rest, seen, ht => by
    rw [dedupAux] at ht
    split at ht
    · exact not_mem_seen_of_mem_dedupAux ht
    · rcases List.mem_cons.1 ht with rfl | h2
      · assumption
      · intro hs
        exact not_mem_seen_of_mem_dedupAux h2 (List.mem_cons_of_mem _ hs)

theorem nodup_dedupAux : ∀ (l seen : List Str), (dedupAux l seen).Nodup
  | [], _ => List.nodup_nil
  | a :: rest, seen => by
    rw [dedupAux]
    split
    · exact nodup_dedupAux rest seen
    · refine List.Nodup.cons ?_ (nodup_dedupAux rest (a :: seen))
      intro ha
      exact not_mem_seen_of_mem_dedupAux ha (List.mem_cons_self _ _)

theorem length_runTrace (n : Nat) : (runTrace n).length = 2 * n := by
  induction n with
  | zero => rfl
  | succ n ih => simp [runTrace, ih]; omega

theorem countP_runTrace_dispatch (n : Nat) :
    (runTrace n).countP isDispatchEvent = n := by
  induction n with
  | zero => rfl
  | succ n ih =>
    simp [runTrace, List.countP_append, ih, List.countP_cons, isDispatchEvent]

theorem countP_runTrace_respond (n : Nat) :
    (runTrace n).countP (fun e => !isDispatchEvent e) = n := by
  induction n with
  | zero => rfl
  | succ n ih =>
    rw [runTrace, List.countP_append, ih]
    rfl

theorem inFlight_take_runTrace (n : Nat) : ∀ m, inFlight ((runTrace n).take m) ≤ 1 := by
  induction n with
  | zero => intro m; simp [runTrace, inFlight]
  | succ n ih =>
    intro m
    rw [runTrace, List.take_append_eq_append_take]
    rcases Nat.le_total m (runTrace n).length with h | h
    · rw [Nat.sub_eq_zero_of_le h, List.take_zero, List.append_nil]
      exact ih m
    · rw [List.take_of_length_le h]
      rcases hm : m - (runTrace n).length with _ | m'
      · rw [List.take_zero, List.append_nil]
        simp only [inFlight, countP_runTrace_dispatch, countP_runTrace_respond]
        omega
      · rcases m' with _ | m''
        · have ht : List.take 1
              [RunEvent.dispatched (n + 1), RunEvent.responded (n + 1)] =
              [RunEvent.dispatched (n + 1)] := rfl
          have c1 : List.countP isDispatchEvent [RunEvent.dispatched (n + 1)] = 1 := rfl
          have c2 : List.countP (fun e => !isDispatchEvent e)
              [RunEvent.dispatched (n + 1)] = 0 := rfl
          rw [ht]
          simp only [inFlight, List.countP_append, countP_runTrace_dispatch,
            countP_runTrace_respond, c1, c2]
          omega
        · have ht : List.take (m'' + 1 + 1)
              [RunEvent.dispatched (n + 1), RunEvent.responded (n + 1)] =
              [RunEvent.dispatched (n + 1), RunEvent.responded (n + 1)] := by
            simp
          have c1 : List.countP isDispatchEvent
              [RunEvent.dispatched (n + 1), RunEvent.responded (n + 1)] = 1 := rfl
          have c2 : List.countP (fun e => !isDispatchEvent e)
              [RunEvent.dispatched (n + 1), RunEvent.responded (n + 1)] = 1 := rfl
          rw [ht]
          simp only [inFlight, List.countP_append, countP_runTrace_dispatch,
            countP_runTrace_respond, c1, c2]
          omega

theorem runTrace_getElem_dispatched :
    ∀ (n k : Nat), k < n →
      (runTrace n)[2 * k]? = some (RunEvent.dispatched (k + 1))
  | n + 1, k, h => by
    rw [runTrace]
    rcases Nat.lt_or_ge k n with h' | h'
    · rw [List.getElem?_append_left (by rw [length_runTrace]; omega)]
      exact runTrace_getElem_dispatched n k h'
    · have hk : k = n := by omega
      subst hk
      rw [List.getElem?_append_right (by rw [length_runTrace])]
      rw [length_runTrace, Nat.sub_self]
      rfl

theorem runTrace_getElem_responded :
    ∀ (n k : Nat), k < n →
      (runTrace n)[2 * k + 1]? = some (RunEvent.responded (k + 1))
  | n + 1, k, h => by
    rw [runTrace]
    rcases Nat.lt_or_ge k n with h' | h'
    · rw [List.getElem?_append_left (by rw [length_runTrace]; omega)]
      exact runTrace_getElem_responded n k h'
    · have hk : k = n := by omega
      subst hk
      rw [List.getElem?_append_right (by rw [length_runTrace]; omega)]
      rw [length_runTrace]
      have h1 : 2 * k + 1 - 2 * k = 1 := by omega
      rw [h1]
      rfl

/-- C1: every dispatched request carries a duration clamped into [3, 120]:
the effective submitted duration is min(max(durationSeconds, 3), 120), which
always lies in [3, 120]; an input of 200 yields 120 and an input of -5
yields 3, and every payload the batch loop dispatches carries exactly this
clamped value. -/
theorem duration_clamped (d : Int) (f : FormInputs) (p : Payload)
    (hp : p ∈ batchPayloads f) :
    (safeDuration d = min (max d 3) 120 ∧ 3 ≤ safeDuration d ∧ safeDuration d ≤ 120)
    ∧ safeDuration 200 = 120 ∧ safeDuration (-5) = 3
    ∧ p.durationSeconds = NumInput.ofNum (safeDuration f.durationInput) := by
  refine ⟨⟨rfl, le_min (le_max_right d 3) (by norm_num), min_le_right _ _⟩,
    by decide, by decide, ?_⟩
  rcases List.mem_map.1 hp with ⟨i, hi, rfl⟩
  rfl

/-- C1 witness: the sample form types 200 as the duration; the single payload
it dispatches carries duration 120. -/
theorem duration_clamped_witness :
    (mkPayload sampleForm 1 0).durationSeconds = NumInput.ofNum 120 :=
  ((duration_clamped 200 sampleForm (mkPayload sampleForm 1 0)
    (by decide)).2.2.2).trans (by decide)

/-- C9: the number of pipeline POST requests one form submission dispatches
is min(max(batchCount, 1), 10): at least one and at most ten. -/
theorem batch_request_count (f : FormInputs) :
    (batchPayloads f).length = (min (max f.batchInput 1) 10).toNat
    ∧ 1 ≤ (batchPayloads f).length ∧ (batchPayloads f).length ≤ 10 := by
  have hlen : (batchPayloads f).length = (min (max f.batchInput 1) 10).toNat := by
    simp [batchPayloads, runCount, safeBatchCount]
  refine ⟨hlen, ?_, ?_⟩ <;> rw [hlen] <;> rw [min_def, max_def] <;>
    split_ifs <;> omega

/-- C9 witness: a batch count of 3 dispatches exactly three requests. -/
theorem batch_request_count_witness :
    (batchPayloads sampleFormBatch).length = 3 :=
  ((batch_request_count sampleFormBatch).1).trans (by decide)

/-- C10: the k-th dispatched payload (k counted from 1) titles the video with
the trimmed title template followed by " #k" when the effective batch count
exceeds 1, and with the bare trimmed template when it is exactly 1. -/
theorem batch_title_numbering (f : FormInputs) (k : Nat) (h1 : 1 ≤ k)
    (h2 : k ≤ runCount f) :
    (batchPayloads f)[k - 1]? = some (mkPayload f (runCount f) (k - 1))
    ∧ (mkPayload f (runCount f) (k - 1)).title =
      some (if 1 < runCount f then
          trimChars f.titleTemplate ++ (' ' :: '#' :: (Nat.repr k).toList)
        else trimChars f.titleTemplate) := by
  constructor
  · rw [batchPayloads, List.getElem?_map, List.getElem?_range (by omega)]
    rfl
  · have hk : k - 1 + 1 = k := by omega
    simp only [mkPayload, hk]

/-- C10 witness: with batch count 3, the second payload is titled
"Dog Park Dash #2". -/
theorem batch_title_numbering_witness :
    (mkPayload sampleFormBatch (runCount sampleFormBatch) 1).title =
      some ("Dog Park Dash #2".toList) := by
  have h := (batch_title_numbering sampleFormBatch 2 (by decide) (by decide)).2
  rw [h]
  decide

/-- C8: within one form submission the runs are strictly sequential: run k's
response is received and consumed (trace position 2k-1, 0-based) strictly
before run k+1 is dispatched (position 2k), and no prefix of the submission's
event trace ever has more than one request in flight. -/
theorem batch_runs_sequential (f : FormInputs) :
    (∀ k, k + 1 < runCount f →
      (batchTrace f)[2 * k + 1]? = some (RunEvent.responded (k + 1)) ∧
      (batchTrace f)[2 * k + 2]? = some (RunEvent.dispatched (k + 2)) ∧
      2 * k + 1 < 2 * k + 2)
    ∧ ∀ m, inFlight ((batchTrace f).take m) ≤ 1 := by
  constructor
  · intro k hk
    refine ⟨runTrace_getElem_responded _ _ (by omega), ?_, by omega⟩
    have h := runTrace_getElem_dispatched (runCount f) (k + 1) (by omega)
    have h2 : 2 * (k + 1) = 2 * k + 2 := by omega
    rw [h2] at h
    exact h
  · intro m
    exact inFlight_take_runTrace _ m

/-- C8 witness: with batch count 3, the trace consumes run 1's response at
position 1 and dispatches run 2 at position 2. -/
theorem batch_runs_sequential_witness :
    (batchTrace sampleFormBatch)[1]? = some (RunEvent.responded 1) ∧
    (batchTrace sampleFormBatch)[2]? = some (RunEvent.dispatched 2) := by
  have h := (batch_runs_sequential sampleFormBatch).1 0 (by decide)
  exact ⟨h.1, h.2.1⟩

/-- C2: the pipeline's tag normalization deduplicates and strips one leading
hash from each tag: the list ["#dog", "dog", "Shorts"] normalizes to exactly
["dog", "Shorts"] (no duplicates, no hash characters), and in general the
result has no duplicates and consists of hash-stripped input tags. -/
theorem tags_normalized (l : List Str) :
    normalizeTags ["#dog".toList, "dog".toList, "Shorts".toList] =
      ["dog".toList, "Shorts".toList]
    ∧ (∀ t ∈ normalizeTags ["#dog".toList, "dog".toList, "Shorts".toList],
        '#' ∉ t)
    ∧ (normalizeTags l).Nodup
    ∧ (∀ t ∈ normalizeTags l, ∃ u ∈ l, t = stripLeadingHash u) := by
  refine ⟨by decide, by decide, nodup_dedupAux _ _, ?_⟩
  intro t ht
  have hmem : t ∈ (l.map stripLeadingHash) := mem_of_mem_dedupAux ht
  rcases List.mem_map.1 hmem with ⟨u, hu, rfl⟩
  exact ⟨u, hu, rfl⟩

/-- C2 witness: "dog" is a member of the normalized sample list and descends
from the input tag "#dog" by stripping its hash. -/
theorem tags_normalized_witness :
    ∃ u ∈ ["#dog".toList, "dog".toList, "Shorts".toList],
      "dog".toList = stripLeadingHash u :=
  (tags_normalized ["#dog".toList, "dog".toList, "Shorts".toList]).2.2.2
    ("dog".toList) (by decide)

/-- C3: when generation succeeds on the live path and the upload leg fails,
the pipeline run still returns a PipelineResult (it does not throw): the
video has status "completed" and the youtube field is the non-throwing failed
variant carrying the upload's cause. -/
theorem upload_failure_nonfatal (env : PipelineEnv) (req : ContentFactoryRequest)
    (hmock : env.mockPipeline = false) (hgc : env.hasGenerationCreds = true)
    (hgen : ∃ j a, env.generation = GenOutcome.completes j a)
    (hup : req.uploadToYoutube = some true)
    (huc : env.hasUploadCreds = true)
    (hfail : ∃ c, env.upload = UpOutcome.fails c) :
    ∃ res, runContentFactory env req = Except.ok res ∧
      res.video.status = "completed".toList ∧
      ∃ c, env.upload = UpOutcome.fails c ∧
        res.youtube = some (UploadOutcome.failed c) := by
  obtain ⟨j, a, hg⟩ := hgen
  obtain ⟨c, hf⟩ := hfail
  have hrun : runContentFactory env req = Except.ok
      { video := { jobId := j, assetLocation := a,
                   status := "completed".toList, mock := false },
        youtube := some (UploadOutcome.failed c),
        durationMs := env.elapsedMs } := by
    simp [runContentFactory, hmock, hgc, hg, hup, huc, hf]
  exact ⟨_, hrun, rfl, c, hf, rfl⟩

/-- C3 witness: a concrete live environment whose upload provider rejects the
upload still yields an ok result with a completed video and a failed youtube
leg. -/
theorem upload_failure_nonfatal_witness :
    ∃ res, runContentFactory sampleFailEnv sampleRequest = Except.ok res ∧
      res.video.status = "completed".toList ∧
      ∃ c, sampleFailEnv.upload = UpOutcome.fails c ∧
        res.youtube = some (UploadOutcome.failed c) :=
  upload_failure_nonfatal sampleFailEnv sampleRequest rfl rfl ⟨_, _, rfl⟩ rfl rfl
    ⟨_, rfl⟩

theorem safeParse_none_of_duration (p : Payload)
    (h : parseDuration p.durationSeconds = none) : safeParse p = none := by
  unfold safeParse
  cases parsePrompt p.prompt <;> cases parseAspect p.aspect <;> simp [h]

/-- C4: a POST payload whose durationSeconds lies outside [3, 120] fails the
schema, and every payload that fails the schema is answered with a 422
validation-failure response with ok false, with runContentFactory never
invoked. -/
theorem post_rejects_invalid (run : ContentFactoryRequest → RunOutcome)
    (p : Payload) :
    (∀ n, p.durationSeconds = NumInput.ofNum n → (n < 3 ∨ 120 < n) →
      safeParse p = none)
    ∧ (safeParse p = none →
      POSTroute run (PostInput.jsonPayload p) =
        ({ status := 422, ok := false,
           body := ResponseBody.errorBody ("Validation failed.".toList) }, false)) := by
  constructor
  · intro n hn hrange
    apply safeParse_none_of_duration
    rw [hn]
    simp only [parseDuration]
    rw [if_neg (by omega)]
  · intro h
    simp [POSTroute, h]

/-- C4 witness: a payload with duration 200 gets the 422 response and the
pipeline is not invoked. -/
theorem post_rejects_invalid_witness :
    POSTroute (fun _ => RunOutcome.throws [])
        (PostInput.jsonPayload badDurationPayload) =
      ({ status := 422, ok := false,
         body := ResponseBody.errorBody ("Validation failed.".toList) }, false) :=
  (post_rejects_invalid (fun _ => RunOutcome.throws []) badDurationPayload).2
    ((post_rejects_invalid (fun _ => RunOutcome.throws []) badDurationPayload).1
      200 rfl (by omega))

/-- C5: every POST invocation is answered either with status 200, ok true and
a body carrying the complete PipelineResult the pipeline returned, or with an
error status 400, 422 or 500, ok false and an error body; no other response
shape exists. -/
theorem post_response_shapes (run : ContentFactoryRequest → RunOutcome)
    (input : PostInput) :
    ((POSTroute run input).1.status = 200 ∧ (POSTroute run input).1.ok = true ∧
      ∃ p req r, input = PostInput.jsonPayload p ∧ safeParse p = some req ∧
        run req = RunOutcome.succeeds r ∧
        (POSTroute run input).1.body = ResponseBody.resultBody r)
    ∨ (((POSTroute run input).1.status = 400 ∨ (POSTroute run input).1.status = 422 ∨
        (POSTroute run input).1.status = 500) ∧ (POSTroute run input).1.ok = false ∧
      ∃ e, (POSTroute run input).1.body = ResponseBody.errorBody e) := by
  cases input with
  | badJson => right; simp [POSTroute]
  | jsonPayload p =>
    cases h : safeParse p with
    | none => right; simp [POSTroute, h]
    | some req =>
      cases hr : run req with
      | succeeds r =>
        left
        refine ⟨?_, ?_, p, req, r, rfl, h, hr, ?_⟩ <;> simp [POSTroute, h, hr]
      | throws m => right; simp [POSTroute, h, hr]

/-- C5 witness: a malformed body is answered with ok false. -/
theorem post_response_shapes_witness :
    (POSTroute (fun _ => RunOutcome.throws []) PostInput.badJson).1.ok = false := by
  rcases post_response_shapes (fun _ => RunOutcome.throws []) PostInput.badJson
    with h | h
  · exact absurd h.1 (by decide)
  · exact h.2.1

/-- C6 counterexample: the prompt "dog" is non-empty text and every other
field of the payload satisfies its stated constraint, yet the schema rejects
the payload (422 path) and the pipeline is never dispatched — non-emptiness
is not the only constraint on prompt. -/
theorem short_prompt_rejected :
    shortPromptPayload.prompt = some ("dog".toList) ∧ "dog".toList ≠ [] ∧
    (parseMinLen 3 shortPromptPayload.title).isSome = true ∧
    (parseMinLen 10 shortPromptPayload.description).isSome = true ∧
    (parseAspect shortPromptPayload.aspect).isSome = true ∧
    (parseDuration shortPromptPayload.durationSeconds).isSome = true ∧
    (parseTags shortPromptPayload.tags).isSome = true ∧
    (parseVisibility shortPromptPayload.visibility).isSome = true ∧
    safeParse shortPromptPayload = none ∧
    (POSTroute (fun _ => RunOutcome.throws [])
      (PostInput.jsonPayload shortPromptPayload)).2 = false := by
  decide

/-- C6 amended: every request whose prompt is a string of at least five
characters, and whose remaining fields satisfy their stated constraints,
passes boundary validation and is dispatched to the pipeline; the minimum
length five (not mere non-emptiness) is the constraint on prompt. -/
theorem prompt_min_length_dispatch (run : ContentFactoryRequest → RunOutcome)
    (p : Payload) (pr t d : Str)
    (hpr : p.prompt = some pr) (hlen : 5 ≤ pr.length)
    (ht : p.title = some t) (htl : 3 ≤ t.length)
    (hd : p.description = some d) (hdl : 10 ≤ d.length)
    (ha : (parseAspect p.aspect).isSome = true)
    (hdur : (parseDuration p.durationSeconds).isSome = true)
    (htags : (parseTags p.tags).isSome = true)
    (hvis : (parseVisibility p.visibility).isSome = true) :
    (safeParse p).isSome = true ∧
    (POSTroute run (PostInput.jsonPayload p)).2 = true := by
  obtain ⟨av, hav⟩ := Option.isSome_iff_exists.1 ha
  obtain ⟨dv, hdv⟩ := Option.isSome_iff_exists.1 hdur
  obtain ⟨tv, htv⟩ := Option.isSome_iff_exists.1 htags
  obtain ⟨vv, hvv⟩ := Option.isSome_iff_exists.1 hvis
  have h1 : parsePrompt p.prompt = some pr := by
    rw [hpr]; simp [parsePrompt, hlen]
  have h4 : parseMinLen 3 p.title = some t := by
    rw [ht]; simp [parseMinLen, htl]
  have h5 : parseMinLen 10 p.description = some d := by
    rw [hd]; simp [parseMinLen, hdl]
  have hreq : safeParse p = some
      { prompt := pr, aspect := av, durationSeconds := dv,
        negativePrompt := p.negativePrompt, stylePreset := p.stylePreset,
        audioPrompt := p.audioPrompt, title := t, description := d,
        tags := tv, publishAt := p.publishAt, visibility := vv,
        uploadToYoutube := p.uploadToYoutube,
        keepLocalFile := p.keepLocalFile } := by
    rw [safeParse, h1, hav, hdv, h4, h5, htv, hvv]
    rfl
  obtain ⟨req, hreq2⟩ : ∃ req, safeParse p = some req := ⟨_, hreq⟩
  refine ⟨by rw [hreq2]; rfl, ?_⟩
  cases hr : run req <;> simp [POSTroute, hreq2, hr]

/-- C6 amended witness: a payload with the five-plus-character prompt
"A happy dog runs" parses and is dispatched. -/
theorem prompt_min_length_dispatch_witness :
    (safeParse coercePayload).isSome = true ∧
    (POSTroute (fun _ => RunOutcome.throws [])
      (PostInput.jsonPayload coercePayload)).2 = true :=
  prompt_min_length_dispatch (fun _ => RunOutcome.throws []) coercePayload
    ("A happy dog runs".toList) ("Dog Park".toList)
    ("A very cute dog video".toList) rfl (by decide) rfl (by decide) rfl
    (by decide) (by decide) (by decide) (by decide) (by decide)

/-- C7: whenever a payload parses, an omitted aspect ratio parses to the
default "9:16", an omitted durationSeconds parses to the default 15, and a
numeric string supplied for durationSeconds is coerced to its numeric
value. -/
theorem parse_defaults (p : Payload) (r : ContentFactoryRequest)
    (h : safeParse p = some r) :
    (p.aspect = none → r.aspect = "9:16".toList)
    ∧ (p.durationSeconds = NumInput.absent → r.durationSeconds = 15)
    ∧ (∀ s n, p.durationSeconds = NumInput.ofStr s → strToNum s = some n →
        r.durationSeconds = n) := by
  rw [safeParse] at h
  simp only [Option.bind_eq_some] at h
  obtain ⟨pv, hpv, av, hav, dv, hdv, tlv, htlv, dsv, hdsv, tgv, htgv, vv, hvv, hmk⟩ := h
  obtain rfl : r = _ := (Option.some.inj hmk).symm
  refine ⟨?_, ?_, ?_⟩
  · intro hnone
    rw [hnone] at hav
    have hav' : some ("9:16".toList) = some av := hav
    exact (Option.some.inj hav').symm
  · intro habs
    rw [habs] at hdv
    have hdv' : some (15 : Int) = some dv := hdv
    exact (Option.some.inj hdv').symm
  · intro s n hs hn
    rw [hs] at hdv
    simp only [parseDuration, hn] at hdv
    split at hdv
    · exact (Option.some.inj hdv).symm
    · cases hdv

/-- C7 witness: a payload omitting the aspect ratio and giving the duration
as the string "42" parses to a request with aspect "9:16" and duration 42. -/
theorem parse_defaults_witness :
    ∃ r, safeParse coercePayload = some r ∧ r.aspect = "9:16".toList ∧
      r.durationSeconds = 42 := by
  obtain ⟨r, hr⟩ : ∃ r, safeParse coercePayload = some r := ⟨_, rfl⟩
  have hd := parse_defaults coercePayload r hr
  exact ⟨r, hr, hd.1 rfl, hd.2.2 ("42".toList) 42 rfl (by decide)⟩
